import Mathlib

/-!
Verification of the test-assertion helper module
(`src/python/test/tools/utils.py`) and the installer version guard
(`src/python/setup.py`) of the scprep repository fragment.

The Python values the helpers operate on are shallowly embedded:

* numpy numbers become `Val`: either `nan` or a rational `num q`
  (`np.testing.assert_array_equal` and `assert_allclose` both treat two
  NaNs in matching positions as equal, which `valEq` / `valClose` mirror);
* a numpy `ndarray` is a shape vector plus a row-major data list;
* a scipy sparse matrix is a format tag, a shape, and a COO-style list of
  stored entries `(row, col, value)` — scipy allows duplicate positions
  (summed on densification) and explicitly stored zeros, so the entry
  list carries no canonicity invariant;
* a pandas `DataFrame` is index labels, column labels, and row-major data;
* a pandas `SparseDataFrame` additionally records its fill value: cells
  equal to the fill value are holes, so its `density` is the ratio of
  non-fill cells to total cells, and `to_dense().values` returns the data;
* `other` stands for any non-matrix Python object, identified by its type
  name only.

Exceptions are a type name plus a message; a Python function that may
raise is embedded as a Lean function into `Except Exc`.
-/

/-- A numpy scalar: NaN or a rational number (floats are modelled as ℚ). -/
inductive Val where
  | nan : Val
  | num (q : ℚ) : Val
deriving DecidableEq, Repr

/-- A Python value as seen by the helpers in `utils.py`: a dense numpy
array, a scipy sparse matrix, a pandas DataFrame, a pandas
SparseDataFrame, or any other object (held abstract, by type name). -/
inductive PyVal where
  | ndarray (shape : List Nat) (data : List Val)
  | spmatrix (fmt : String) (rows cols : Nat) (entries : List (Nat × Nat × ℚ))
  | dataFrame (index columns : List String) (data : List Val)
  | sparseDataFrame (index columns : List String) (data : List Val) (fill : Val)
  | other (tag : String)
deriving DecidableEq, Repr

/-- The concrete Python type of a value, as compared by `type(X) == type(Y)`.
Two scipy sparse matrices of different formats have different types;
`pd.SparseDataFrame` is a distinct type from `pd.DataFrame` (though a
subclass of it, see `isDataFrame`). -/
inductive TypeKind where
  | ndarrayK
  | spmatrixK (fmt : String)
  | dataFrameK
  | sparseDataFrameK
  | otherK (tag : String)
deriving DecidableEq, Repr

/-- `type(X)` of an embedded value. -/
def typeKind : PyVal → TypeKind
  | .ndarray _ _ => .ndarrayK
  | .spmatrix fmt _ _ _ => .spmatrixK fmt
  | .dataFrame _ _ _ => .dataFrameK
  | .sparseDataFrame _ _ _ _ => .sparseDataFrameK
  | .other tag => .otherK tag

/-- `type(X).__name__`, used in diagnostic messages. -/
def typeName : PyVal → String
  | .ndarray _ _ => "ndarray"
  | .spmatrix fmt _ _ _ => fmt ++ "_matrix"
  | .dataFrame _ _ _ => "DataFrame"
  | .sparseDataFrame _ _ _ _ => "SparseDataFrame"
  | .other tag => tag

/-- `scipy.sparse.issparse(X)`: true exactly for scipy sparse matrices
(a pandas SparseDataFrame is not a scipy sparse matrix). -/
def issparse : PyVal → Bool
  | .spmatrix _ _ _ _ => true
  | _ => false

/-- `isinstance(X, pd.DataFrame)`: true for DataFrame and for its
subclass SparseDataFrame. -/
def isDataFrame : PyVal → Bool
  | .dataFrame _ _ _ => true
  | .sparseDataFrame _ _ _ _ => true
  | _ => false

/-- `isinstance(X, pd.SparseDataFrame)`. -/
def isSparseDataFrame : PyVal → Bool
  | .sparseDataFrame _ _ _ _ => true
  | _ => false

/-- `X.shape` of a matrix-like value (not defined on `other`, which has
no `shape` attribute; we return `[]` there, and theorems about code that
reads `.shape` restrict to `matrixLike` inputs). -/
def pyShape : PyVal → List Nat
  | .ndarray s _ => s
  | .spmatrix _ r c _ => [r, c]
  | .dataFrame idx cols _ => [idx.length, cols.length]
  | .sparseDataFrame idx cols _ _ => [idx.length, cols.length]
  | .other _ => []

/-- A value of one of the matrix shapes the helpers recognize. -/
def matrixLike : PyVal → Bool
  | .other _ => false
  | _ => true

/-- Sum of the stored entries of a COO entry list at position `(r, c)`
(scipy sums duplicate entries when densifying). -/
def sumAt (es : List (Nat × Nat × ℚ)) (r c : Nat) : ℚ :=
  es.foldr (fun e acc => if e.1 = r ∧ e.2.1 = c then e.2.2 + acc else acc) 0

/-- Row-major dense data of a sparse matrix, as built by `X.toarray()`. -/
def spToDense (rows cols : Nat) (es : List (Nat × Nat × ℚ)) : List Val :=
  (List.range (rows * cols)).map (fun i => Val.num (sumAt es (i / cols) (i % cols)))

/-- `X.tocoo().nnz`: the number of stored entries (duplicates and
explicitly stored zeros included). -/
def nnz : PyVal → Nat
  | .spmatrix _ _ _ es => es.length
  | _ => 0

/-- `X.density` of a SparseDataFrame: stored (non-fill) cells over total
cells; `none` on values that have no `density` attribute. -/
def density : PyVal → Option ℚ
  | .sparseDataFrame idx cols data fill =>
      some (((data.countP (fun v => decide (v ≠ fill))) : ℚ) / ((idx.length * cols.length : Nat) : ℚ))
  | _ => none

/-- `to_array` from `utils.py`: densify scipy sparse matrices; densify a
SparseDataFrame and take its values; take the values of a DataFrame;
return anything else unchanged. -/
def to_array : PyVal → PyVal
  | .spmatrix _ r c es => .ndarray [r, c] (spToDense r c es)
  | .sparseDataFrame idx cols data _ => .ndarray [idx.length, cols.length] data
  | .dataFrame idx cols data => .ndarray [idx.length, cols.length] data
  | X => X

/-- Element equality as used by `np.testing.assert_array_equal`: two NaNs
in the same position compare equal; numbers compare exactly. -/
def valEq : Val → Val → Bool
  | .nan, .nan => true
  | .num a, .num b => decide (a = b)
  | _, _ => false

/-- Element-wise equality of two data lists (false on length mismatch). -/
def valListEq : List Val → List Val → Bool
  | [], [] => true
  | a :: as, b :: bs => valEq a b && valListEq as bs
  | _, _ => false

/-- `np.testing.assert_array_equal(X, Y)` on the dense values produced by
`to_array`: shapes must match and elements must be pairwise equal (NaNs in
matching positions count as equal). `true` means the assertion passes.
Conversion of non-array Python objects by numpy is not modelled; on those
the comparison is out of scope and returns `false`. -/
def array_equal : PyVal → PyVal → Bool
  | .ndarray s1 d1, .ndarray s2 d2 => decide (s1 = s2) && valListEq d1 d2
  | _, _ => false

/-- Element closeness as used by `np.testing.assert_allclose(actual,
desired, rtol, atol)`: passes when `|actual - desired| ≤ atol + rtol *
|desired|`; NaNs in matching positions count as equal. -/
def valClose (rtol atol : ℚ) : Val → Val → Bool
  | .nan, .nan => true
  | .num a, .num d => decide (|a - d| ≤ atol + rtol * |d|)
  | _, _ => false

/-- Element-wise closeness of two data lists (false on length mismatch). -/
def valListClose (rtol atol : ℚ) : List Val → List Val → Bool
  | [], [] => true
  | a :: as, b :: bs => valClose rtol atol a b && valListClose rtol atol as bs
  | _, _ => false

/-- `np.testing.assert_allclose(X, Y, rtol, atol)` on the dense values
produced by `to_array`. `true` means the assertion passes. -/
def array_allclose (rtol atol : ℚ) : PyVal → PyVal → Bool
  | .ndarray s1 d1, .ndarray s2 d2 => decide (s1 = s2) && valListClose rtol atol d1 d2
  | _, _ => false

/-- `assert_all_equal` from `utils.py`: normalize both sides with
`to_array` and assert exact element-wise equality. `true` = passes. -/
def assert_all_equal (X Y : PyVal) : Bool :=
  array_equal (to_array X) (to_array Y)

/-- `assert_all_close` from `utils.py`: normalize both sides with
`to_array` and assert approximate equality with the given tolerances. -/
def assert_all_close (X Y : PyVal) (rtol atol : ℚ) : Bool :=
  array_allclose rtol atol (to_array X) (to_array Y)

/-- `assert_all_close` with its default tolerances `rtol=1e-05`,
`atol=1e-08`. -/
def assert_all_close_default (X Y : PyVal) : Bool :=
  assert_all_close X Y (1 / 100000) (1 / 100000000)

/-- `assert_matrix_class_equivalent(X, Y)` from `utils.py`, as a Bool:
`true` when every `assert` in the function body passes (the function then
returns `True`), `false` when some assertion fails. The asserts, in the
order of the source: `X.shape == Y.shape`; if `sparse.issparse(X)` then
`sparse.issparse(Y)` and `X.tocoo().nnz == Y.tocoo().nnz`, else
`type(X) == type(Y)`; if `isinstance(X, pd.DataFrame)` then the column
and index labels match; if either side is a `pd.SparseDataFrame` then the
densities match. -/
def assert_matrix_class_equivalent (X Y : PyVal) : Bool :=
  decide (pyShape X = pyShape Y)
  && (if issparse X then issparse Y && decide (nnz X = nnz Y)
      else decide (typeKind X = typeKind Y))
  && (if isDataFrame X then
        match X, Y with
        | .dataFrame idxX colsX _, .dataFrame idxY colsY _ =>
            decide (colsX = colsY) && decide (idxX = idxY)
        | .sparseDataFrame idxX colsX _ _, .sparseDataFrame idxY colsY _ _ =>
            decide (colsX = colsY) && decide (idxX = idxY)
        | .dataFrame idxX colsX _, .sparseDataFrame idxY colsY _ _ =>
            decide (colsX = colsY) && decide (idxX = idxY)
        | .sparseDataFrame idxX colsX _ _, .dataFrame idxY colsY _ =>
            decide (colsX = colsY) && decide (idxX = idxY)
        | _, _ => false
      else true)
  && (if isSparseDataFrame X || isSparseDataFrame Y then decide (density X = density Y)
      else true)

/-- The structural-equivalence predicate as the specification words it:
shapes match; if one side is sparse, both are sparse with equal non-zero
counts, otherwise both have the identical concrete representation kind;
if either is a labeled table, column and row label sequences match; if
either is a sparse labeled table, the densities match. -/
def matrix_class_equivalent_spec (X Y : PyVal) : Bool :=
  decide (pyShape X = pyShape Y)
  && (if issparse X || issparse Y then issparse X && issparse Y && decide (nnz X = nnz Y)
      else decide (typeKind X = typeKind Y))
  && (if isDataFrame X || isDataFrame Y then
        match X, Y with
        | .dataFrame idxX colsX _, .dataFrame idxY colsY _ =>
            decide (colsX = colsY) && decide (idxX = idxY)
        | .sparseDataFrame idxX colsX _ _, .sparseDataFrame idxY colsY _ _ =>
            decide (colsX = colsY) && decide (idxX = idxY)
        | .dataFrame idxX colsX _, .sparseDataFrame idxY colsY _ _ =>
            decide (colsX = colsY) && decide (idxX = idxY)
        | .sparseDataFrame idxX colsX _ _, .dataFrame idxY colsY _ =>
            decide (colsX = colsY) && decide (idxX = idxY)
        | _, _ => false
      else true)
  && (if isSparseDataFrame X || isSparseDataFrame Y then decide (density X = density Y)
      else true)

/-- The assertion sequence of `assert_matrix_class_equivalent` computes
exactly the structural-equivalence predicate the specification describes,
on all embedded values. -/
theorem amce_eq_spec (X Y : PyVal) :
    assert_matrix_class_equivalent X Y = matrix_class_equivalent_spec X Y := by
  cases X <;> cases Y <;>
    simp [assert_matrix_class_equivalent, matrix_class_equivalent_spec, issparse,
      isDataFrame, isSparseDataFrame, typeKind, nnz, density, pyShape]

/-- C1: for matrix-like X and Y, assert_matrix_class_equivalent passes (returns
True) exactly when the spec's structural-equivalence predicate holds: shapes
match; if one side is sparse then both are with equal non-zero counts, else the
concrete types coincide; labeled tables must agree on column and row labels;
sparse labeled tables must agree on density. In particular it rejects a
sparse/dense mismatch, a shape mismatch, and a column-label mismatch between two
otherwise-equal labeled tables. -/
theorem amce_correct :
    (∀ X Y : PyVal, matrixLike X = true → matrixLike Y = true →
      (assert_matrix_class_equivalent X Y = true ↔ matrix_class_equivalent_spec X Y = true))
    ∧ assert_matrix_class_equivalent
        (.spmatrix "csr" 1 1 [(0, 0, 1)]) (.ndarray [1, 1] [.num 1]) = false
    ∧ assert_matrix_class_equivalent
        (.ndarray [1, 2] [.num 1, .num 2]) (.ndarray [2, 1] [.num 1, .num 2]) = false
    ∧ assert_matrix_class_equivalent
        (.dataFrame ["r1"] ["c1"] [.num 1]) (.dataFrame ["r1"] ["c2"] [.num 1]) = false := by
  refine ⟨fun X Y _ _ => by rw [amce_eq_spec], by decide, by decide, by decide⟩

/-- Witness for C1 at concrete matrix-like inputs. -/
theorem amce_correct_witness :
    matrixLike (PyVal.ndarray [1] [.num 0]) = true
    ∧ (assert_matrix_class_equivalent (PyVal.ndarray [1] [.num 0]) (PyVal.ndarray [1] [.num 0]) = true
        ↔ matrix_class_equivalent_spec (PyVal.ndarray [1] [.num 0]) (PyVal.ndarray [1] [.num 0]) = true) :=
  ⟨rfl, amce_correct.1 (PyVal.ndarray [1] [.num 0]) (PyVal.ndarray [1] [.num 0]) rfl rfl⟩

/-- A Python exception: its type name (`type(e).__name__`) and message. -/
structure Exc where
  kind : String
  msg : String
deriving DecidableEq, Repr

/-- A Python callable under test: its display identity (as interpolated by
`"{}".format(transform)`) and its behavior, a function from the input and
keyword arguments to either an exception or a result. -/
structure Transform where
  name : String
  fn : PyVal → List (String × PyVal) → Except Exc PyVal

/-- `assert_transform_equals(X, Y, transform, check, **kwargs)` from
`utils.py`. It calls `transform(X, **kwargs)` inside a `try`; any
exception `e` is re-raised as a `RuntimeError` whose message interpolates
`type(e).__name__`, `type(X).__name__`, the transform and `str(e)`.
Otherwise `check(Y, Y2)` runs (the source line `check(Y, Y2), "..."` is a
tuple expression, so the string is inert: the failure is the
AssertionError that `check` itself raises on mismatch, modelled here as
`check` returning `false`), and on success `Y2` is returned. -/
def assert_transform_equals (X Y : PyVal) (transform : Transform)
    (check : PyVal → PyVal → Bool) (kwargs : List (String × PyVal)) : Except Exc PyVal :=
  match transform.fn X kwargs with
  | .error e =>
      .error ⟨"RuntimeError",
        e.kind ++ " with " ++ typeName X ++ " input to " ++ transform.name ++ "\n" ++ e.msg⟩
  | .ok Y2 => if check Y Y2 then .ok Y2 else .error ⟨"AssertionError", "check failed"⟩

/-- `assert_transform_unchanged(X, transform, check, **kwargs)` from
`utils.py`: `assert_transform_equals` with `Y = X` (its result is
discarded: the Python wrapper returns `None`). -/
def assert_transform_unchanged (X : PyVal) (transform : Transform)
    (check : PyVal → PyVal → Bool) (kwargs : List (String × PyVal)) : Except Exc Unit :=
  (assert_transform_equals X X transform check kwargs).map fun _ => ()

/-- `assert_transform_equivalent(X, Y, transform, check, **kwargs)` from
`utils.py`: first `assert_transform_equals`, then
`assert assert_matrix_class_equivalent(X, Y2)` — the structural check runs
between the input `X` and the output `Y2` (not between `Y` and `Y2`).
The Python function body has no `return` statement, so it yields `None`. -/
def assert_transform_equivalent (X Y : PyVal) (transform : Transform)
    (check : PyVal → PyVal → Bool) (kwargs : List (String × PyVal)) : Except Exc Unit :=
  match assert_transform_equals X Y transform check kwargs with
  | .error e => .error e
  | .ok Y2 =>
      if assert_matrix_class_equivalent X Y2 then .ok ()
      else .error ⟨"AssertionError", typeName X ++ " produced inconsistent matrix output"⟩

/-- `assert_transform_raises(X, transform, exception)` from `utils.py`:
delegates to `nose.tools.assert_raises(exception, transform, X)`, which
passes exactly when `transform(X)` (no keyword arguments) raises the
given exception kind. `true` = the assertion passes. -/
def assert_transform_raises (X : PyVal) (transform : Transform) (exc : String) : Bool :=
  match transform.fn X [] with
  | .error e => decide (e.kind = exc)
  | .ok _ => false

/-- `assert_transform_raises` with its default `exception=ValueError`. -/
def assert_transform_raises_default (X : PyVal) (transform : Transform) : Bool :=
  assert_transform_raises X transform "ValueError"

/-- C4: if the transform raises, assert_transform_equals re-raises a
RuntimeError whose message carries the original exception's type name, the
input's type name, the transform's identity and the original message; if the
transform returns but the equality predicate finds a mismatch between the
expected value and the output, an assertion failure is raised. -/
theorem assert_transform_equals_error_handling :
    (∀ (X Y : PyVal) (t : Transform) (check : PyVal → PyVal → Bool)
        (kwargs : List (String × PyVal)) (e : Exc),
      t.fn X kwargs = .error e →
      assert_transform_equals X Y t check kwargs =
        .error ⟨"RuntimeError",
          e.kind ++ " with " ++ typeName X ++ " input to " ++ t.name ++ "\n" ++ e.msg⟩)
    ∧ (∀ (X Y : PyVal) (t : Transform) (check : PyVal → PyVal → Bool)
        (kwargs : List (String × PyVal)) (Y2 : PyVal),
      t.fn X kwargs = .ok Y2 → check Y Y2 = false →
      assert_transform_equals X Y t check kwargs = .error ⟨"AssertionError", "check failed"⟩) := by
  constructor
  · intro X Y t check kwargs e h
    simp [assert_transform_equals, h]
  · intro X Y t check kwargs Y2 h hc
    simp [assert_transform_equals, h, hc]

/-- A transform that always raises a ValueError, used as a witness input. -/
def raisingTransform : Transform :=
  ⟨"<function fit_transform>", fun _ _ => .error ⟨"ValueError", "bad input"⟩⟩

/-- Witness for C4 at a concrete raising transform. -/
theorem assert_transform_equals_error_handling_witness :
    raisingTransform.fn (PyVal.ndarray [1] [.num 1]) [] = .error ⟨"ValueError", "bad input"⟩
    ∧ assert_transform_equals (PyVal.ndarray [1] [.num 1]) (PyVal.ndarray [1] [.num 1])
        raisingTransform assert_all_equal [] =
      .error ⟨"RuntimeError",
        "ValueError" ++ " with " ++ typeName (PyVal.ndarray [1] [.num 1]) ++ " input to "
          ++ raisingTransform.name ++ "\n" ++ "bad input"⟩ :=
  ⟨rfl, assert_transform_equals_error_handling.1 (PyVal.ndarray [1] [.num 1])
    (PyVal.ndarray [1] [.num 1]) raisingTransform assert_all_equal [] ⟨"ValueError", "bad input"⟩ rfl⟩

/-- C7: assert_transform_raises passes exactly when invoking the transform on
the input (with no keyword arguments) raises the specified exception kind, and
its default expected exception is ValueError. -/
theorem assert_transform_raises_iff :
    (∀ (X : PyVal) (t : Transform) (exc : String),
      assert_transform_raises X t exc = true ↔
        ∃ e : Exc, t.fn X [] = .error e ∧ e.kind = exc)
    ∧ (∀ (X : PyVal) (t : Transform),
      assert_transform_raises_default X t = assert_transform_raises X t "ValueError") := by
  refine ⟨fun X t exc => ?_, fun X t => rfl⟩
  unfold assert_transform_raises
  cases h : t.fn X [] with
  | error e => simp
  | ok v => simp

/-- A transform that returns a constant dense array, used as a witness. -/
def constDenseTransform : Transform :=
  ⟨"<function densify>", fun _ _ => .ok (.ndarray [1, 1] [.num 2])⟩

/-- C9: assert_transform_equivalent runs its structural-equivalence check
between the input X and the transform's output Y2, not between the expected
value Y and Y2: whenever the output matches Y under the equality predicate and
is structurally equivalent to X, the call passes — even at a concrete instance
where Y (a labeled table) has a different representation kind than the output
(a dense array). -/
theorem assert_transform_equivalent_structural_input :
    (∀ (X Y : PyVal) (t : Transform) (check : PyVal → PyVal → Bool)
        (kwargs : List (String × PyVal)) (Y2 : PyVal),
      t.fn X kwargs = .ok Y2 → check Y Y2 = true →
      assert_matrix_class_equivalent X Y2 = true →
      assert_transform_equivalent X Y t check kwargs = .ok ())
    ∧ assert_matrix_class_equivalent
        (.dataFrame ["r"] ["c"] [.num 2]) (.ndarray [1, 1] [.num 2]) = false
    ∧ assert_transform_equivalent (.ndarray [1, 1] [.num 1]) (.dataFrame ["r"] ["c"] [.num 2])
        constDenseTransform assert_all_equal [] = .ok () := by
  refine ⟨?_, by decide, by rfl⟩
  intro X Y t check kwargs Y2 h hc hm
  simp [assert_transform_equivalent, assert_transform_equals, h, hc, hm]

/-- Witness for C9 at the concrete transform, discharging its hypotheses. -/
theorem assert_transform_equivalent_structural_input_witness :
    constDenseTransform.fn (PyVal.ndarray [1, 1] [.num 1]) [] = .ok (PyVal.ndarray [1, 1] [.num 2])
    ∧ assert_transform_equivalent (PyVal.ndarray [1, 1] [.num 1])
        (PyVal.dataFrame ["r"] ["c"] [.num 2]) constDenseTransform assert_all_equal [] = .ok () :=
  ⟨rfl, assert_transform_equivalent_structural_input.1 (PyVal.ndarray [1, 1] [.num 1])
    (PyVal.dataFrame ["r"] ["c"] [.num 2]) constDenseTransform assert_all_equal []
    (PyVal.ndarray [1, 1] [.num 2]) rfl (by decide) (by decide)⟩

/-- Element equality is reflexive, including on NaN (numpy's testing
comparison treats matching NaNs as equal). -/
theorem valEq_refl (v : Val) : valEq v v = true := by
  cases v <;> simp [valEq]

/-- Element-wise list equality is reflexive. -/
theorem valListEq_refl (d : List Val) : valListEq d d = true := by
  induction d with
  | nil => rfl
  | cons a as ih => simp [valListEq, valEq_refl, ih]

/-- Normalizing any matrix-like value yields a dense array. -/
theorem to_array_matrixLike (X : PyVal) (h : matrixLike X = true) :
    ∃ s d, to_array X = .ndarray s d := by
  cases X with
  | ndarray s d => exact ⟨s, d, rfl⟩
  | spmatrix fmt r c es => exact ⟨[r, c], spToDense r c es, rfl⟩
  | dataFrame idx cols data => exact ⟨[idx.length, cols.length], data, rfl⟩
  | sparseDataFrame idx cols data fill => exact ⟨[idx.length, cols.length], data, rfl⟩
  | other tag => simp [matrixLike] at h

/-- C5: assert_all_equal(X, X) never fails for any supported matrix-like X
(dense array, sparse matrix, or labeled table), including values containing
NaN: the exact-equality predicate is reflexive after normalization. -/
theorem assert_all_equal_refl (X : PyVal) (h : matrixLike X = true) :
    assert_all_equal X X = true := by
  obtain ⟨s, d, hX⟩ := to_array_matrixLike X h
  simp [assert_all_equal, hX, array_equal, valListEq_refl]

/-- Witness for C5 at a dense array containing a NaN. -/
theorem assert_all_equal_refl_witness :
    matrixLike (PyVal.ndarray [2] [.nan, .num (3 / 2)]) = true
    ∧ assert_all_equal (PyVal.ndarray [2] [.nan, .num (3 / 2)])
        (PyVal.ndarray [2] [.nan, .num (3 / 2)]) = true :=
  ⟨rfl, assert_all_equal_refl (PyVal.ndarray [2] [.nan, .num (3 / 2)]) rfl⟩

/-- C6: assert_all_close defaults to rtol=1e-05 and atol=1e-08, and on
single-element dense arrays it passes exactly when |x - y| ≤ atol + rtol·|y|;
with the defaults, [1.0] against [1.0 + 1e-9] passes and [1.0] against [1.1]
fails. -/
theorem assert_all_close_tolerance :
    (∀ X Y : PyVal, assert_all_close_default X Y
        = assert_all_close X Y (1 / 100000) (1 / 100000000))
    ∧ (∀ x y rtol atol : ℚ,
        assert_all_close (.ndarray [1] [.num x]) (.ndarray [1] [.num y]) rtol atol = true
          ↔ |x - y| ≤ atol + rtol * |y|)
    ∧ assert_all_close_default (.ndarray [1] [.num 1])
        (.ndarray [1] [.num (1 + 1 / 1000000000)]) = true
    ∧ assert_all_close_default (.ndarray [1] [.num 1])
        (.ndarray [1] [.num (11 / 10)]) = false := by
  have key : ∀ x y rtol atol : ℚ,
      assert_all_close (.ndarray [1] [.num x]) (.ndarray [1] [.num y]) rtol atol = true
        ↔ |x - y| ≤ atol + rtol * |y| := by
    intro x y rtol atol
    simp [assert_all_close, to_array, array_allclose, valListClose, valClose]
  refine ⟨fun X Y => rfl, key, ?_, ?_⟩
  · rw [assert_all_close_default, key]
    rw [abs_le]
    constructor <;> rw [abs_of_nonneg (by norm_num)] <;> norm_num
  · rw [assert_all_close_default, Bool.eq_false_iff, Ne, key]
    rw [abs_of_nonneg (by norm_num : (0:ℚ) ≤ 11/10), abs_le]
    norm_num

/-- The guard of `setup.py`, line 31: abort when
`sys.version_info[:2] < (2, 7) or (3, 0) <= sys.version_info[:2] < (3, 5)`
(Python tuples compare lexicographically). `true` = RuntimeError raised. -/
def version_guard_aborts (major minor : Nat) : Bool :=
  (decide (major < 2) || (decide (major = 2) && decide (minor < 7)))
  || ((decide (3 < major) || (decide (major = 3) && decide (0 ≤ minor)))
      && (decide (major < 3) || (decide (major = 3) && decide (minor < 5))))

/-- The supported interpreter range as the spec words it: the 2.7 series,
or any version at least 3.5. -/
def supported_version (major minor : Nat) : Prop :=
  (major = 2 ∧ 7 ≤ minor) ∨ (major = 3 ∧ 5 ≤ minor) ∨ 4 ≤ major

/-- C8: the setup script aborts with a RuntimeError if and only if the running
interpreter version lies outside the supported range — exactly when the
version is below 2.7, or is at least 3.0 but below 3.5; for every other
version installation proceeds past the check. -/
theorem version_guard_iff_unsupported (major minor : Nat) :
    version_guard_aborts major minor = true ↔ ¬ supported_version major minor := by
  simp only [version_guard_aborts, supported_version, Bool.or_eq_true, Bool.and_eq_true,
    decide_eq_true_eq]
  omega

/-- Witness for C8: Python 3.4 aborts (it is unsupported). -/
theorem version_guard_iff_unsupported_witness :
    version_guard_aborts 3 4 = true ↔ ¬ supported_version 3 4 :=
  version_guard_iff_unsupported 3 4

/-- `np.count_nonzero` on the dense data of an array (NaN counts as
non-zero, as in numpy). -/
def countNonzero : PyVal → Nat
  | .ndarray _ d => d.countP (fun v => decide (v ≠ Val.num 0))
  | _ => 0

/-- A scipy sparse matrix in canonical form: stored positions are
pairwise distinct and in bounds, and no zero is stored explicitly.
Matrices built by scipy's usual constructors are canonical, but scipy
also admits duplicate entries and explicitly stored zeros. -/
def canonicalEntries (rows cols : Nat) (es : List (Nat × Nat × ℚ)) : Prop :=
  es.Pairwise (fun e f => (e.1, e.2.1) ≠ (f.1, f.2.1))
  ∧ ∀ e ∈ es, e.1 < rows ∧ e.2.1 < cols ∧ e.2.2 ≠ 0

instance (rows cols : Nat) (es : List (Nat × Nat × ℚ)) :
    Decidable (canonicalEntries rows cols es) := by
  unfold canonicalEntries; infer_instance

theorem sumAt_cons (e : Nat × Nat × ℚ) (es : List (Nat × Nat × ℚ)) (r c : Nat) :
    sumAt (e :: es) r c =
      if e.1 = r ∧ e.2.1 = c then e.2.2 + sumAt es r c else sumAt es r c := rfl

/-- A position carried by no entry sums to zero. -/
theorem sumAt_eq_zero (es : List (Nat × Nat × ℚ)) (r c : Nat)
    (h : ∀ e ∈ es, ¬(e.1 = r ∧ e.2.1 = c)) : sumAt es r c = 0 := by
  induction es with
  | nil => rfl
  | cons a es ih =>
      rw [sumAt_cons, if_neg (h a (by simp))]
      exact ih fun e he => h e (by simp [he])

/-- With pairwise-distinct positions, the sum at a stored position is the
stored value. -/
theorem sumAt_mem (es : List (Nat × Nat × ℚ))
    (hpw : es.Pairwise (fun e f => (e.1, e.2.1) ≠ (f.1, f.2.1)))
    (r c : Nat) (v : ℚ) (hm : (r, c, v) ∈ es) : sumAt es r c = v := by
  induction es with
  | nil => cases hm
  | cons a es ih =>
      rw [List.pairwise_cons] at hpw
      rcases List.mem_cons.mp hm with h | h
      · subst h
        rw [sumAt_cons, if_pos ⟨rfl, rfl⟩,
          sumAt_eq_zero es r c (fun e he hrc => hpw.1 e he (by simp [hrc.1, hrc.2])), add_zero]
      · have hne : ¬(a.1 = r ∧ a.2.1 = c) := by
          intro hrc
          exact hpw.1 _ h (by simp [hrc.1, hrc.2])
        rw [sumAt_cons, if_neg hne]
        exact ih hpw.2 h

/-- Row-major encoding of an in-bounds position decodes to itself. -/
theorem encode_div_mod (r c cols : Nat) (hc : c < cols) :
    (r * cols + c) / cols = r ∧ (r * cols + c) % cols = c := by
  constructor
  · rw [Nat.mul_comm, Nat.mul_add_div (by omega), Nat.div_eq_of_lt hc, Nat.add_zero]
  · rw [Nat.mul_comm, Nat.mul_add_mod, Nat.mod_eq_of_lt hc]

/-- Row-major encoding of an in-bounds position lands inside the grid. -/
theorem encode_lt (r c rows cols : Nat) (hr : r < rows) (hc : c < cols) :
    r * cols + c < rows * cols := by
  have h1 : r * cols + c < (r + 1) * cols := by rw [Nat.add_mul, Nat.one_mul]; omega
  exact h1.trans_le (Nat.mul_le_mul_right cols (by omega))

/-- Counting step: if two predicates agree everywhere on a duplicate-free
list except at one member, where the first holds and the second does not,
the first counts exactly one more. -/
theorem countP_succ_of_agree (l : List Nat) (hnd : l.Nodup) (i0 : Nat) (hi : i0 ∈ l)
    (p q : Nat → Bool) (hagree : ∀ x ∈ l, x ≠ i0 → p x = q x)
    (hp : p i0 = true) (hq : q i0 = false) :
    l.countP p = l.countP q + 1 := by
  induction l with
  | nil => cases hi
  | cons a l ih =>
      rw [List.nodup_cons] at hnd
      rw [List.countP_cons, List.countP_cons]
      rcases List.mem_cons.mp hi with h | h
      · have heq : l.countP p = l.countP q := by
          apply List.countP_congr
          intro x hx
          have hne : x ≠ i0 := fun hxa => hnd.1 (by rw [← h, ← hxa]; exact hx)
          rw [hagree x (by simp [hx]) hne]
        rw [heq, ← h, hp, hq]
        simp
      · have hane : a ≠ i0 := fun haeq => hnd.1 (haeq ▸ h)
        have ha : p a = q a := hagree a (by simp) hane
        rw [ih hnd.2 h (fun x hx hxne => hagree x (by simp [hx]) hxne), ha]
        cases q a <;> simp

/-- The dense grid of a canonical entry list has exactly one non-zero
cell per stored entry. -/
theorem countP_range_sumAt (rows cols : Nat) (es : List (Nat × Nat × ℚ))
    (h : canonicalEntries rows cols es) :
    (List.range (rows * cols)).countP
        (fun i => decide (sumAt es (i / cols) (i % cols) ≠ 0)) = es.length := by
  induction es with
  | nil =>
      rw [List.countP_eq_zero.mpr, List.length_nil]
      intro i _
      simp [sumAt]
  | cons e es ih =>
      obtain ⟨hpw, hb⟩ := h
      rw [List.pairwise_cons] at hpw
      obtain ⟨her, hec, hev⟩ := hb e (by simp)
      have hcols : 0 < cols := by omega
      have hdm := encode_div_mod e.1 e.2.1 cols hec
      have hzero : sumAt es e.1 e.2.1 = 0 :=
        sumAt_eq_zero es e.1 e.2.1 fun f hf hrc => hpw.1 f hf (by simp [hrc.1, hrc.2])
      have step := countP_succ_of_agree (List.range (rows * cols)) (List.nodup_range _)
        (e.1 * cols + e.2.1)
        (List.mem_range.mpr (encode_lt e.1 e.2.1 rows cols her hec))
        (fun i => decide (sumAt (e :: es) (i / cols) (i % cols) ≠ 0))
        (fun i => decide (sumAt es (i / cols) (i % cols) ≠ 0))
        (fun x _ hx => by
          have hne : ¬(e.1 = x / cols ∧ e.2.1 = x % cols) := by
            intro hrc
            apply hx
            rw [hrc.1, hrc.2]
            exact (Nat.div_add_mod' x cols).symm
          show decide (sumAt (e :: es) (x / cols) (x % cols) ≠ 0)
              = decide (sumAt es (x / cols) (x % cols) ≠ 0)
          rw [sumAt_cons, if_neg hne])
        (by
          show decide (sumAt (e :: es) ((e.1 * cols + e.2.1) / cols)
              ((e.1 * cols + e.2.1) % cols) ≠ 0) = true
          rw [hdm.1, hdm.2, sumAt_cons, if_pos ⟨rfl, rfl⟩, hzero, add_zero]
          simpa using hev)
        (by
          show decide (sumAt es ((e.1 * cols + e.2.1) / cols)
              ((e.1 * cols + e.2.1) % cols) ≠ 0) = false
          rw [hdm.1, hdm.2, hzero]
          simp)
      rw [step, ih ⟨hpw.2, fun f hf => hb f (by simp [hf])⟩]
      rfl

/-- C3 counterexample: the claim fails on a sparse matrix with an explicitly
stored zero — `sp.coo_matrix(([0.], ([0], [0])), shape=(1, 1))` has `nnz = 1`,
but its densification has no non-zero entry. -/
theorem to_array_sparse_nnz_counterexample :
    ¬ (countNonzero (to_array (.spmatrix "coo" 1 1 [(0, 0, 0)]))
        = nnz (.spmatrix "coo" 1 1 [(0, 0, 0)])) := by
  have h1 : spToDense 1 1 [(0, 0, 0)] = [Val.num 0] := by
    simp [spToDense, sumAt, List.range_succ]
  simp only [to_array, countNonzero, nnz, h1]
  simp

/-- C3 (amended): for every sparse matrix in canonical form (pairwise-distinct
in-bounds stored positions, no explicitly stored zero), to_array yields a
dense array with the same shape, the same number of non-zero entries, and
element-wise the same values: each stored entry appears at its position and
every unstored position holds zero. -/
theorem to_array_sparse_canonical (fmt : String) (rows cols : Nat)
    (es : List (Nat × Nat × ℚ)) (h : canonicalEntries rows cols es) :
    pyShape (to_array (.spmatrix fmt rows cols es)) = pyShape (.spmatrix fmt rows cols es)
    ∧ countNonzero (to_array (.spmatrix fmt rows cols es)) = nnz (.spmatrix fmt rows cols es)
    ∧ (∀ r c v, (r, c, v) ∈ es →
        (spToDense rows cols es).getD (r * cols + c) (Val.num 0) = Val.num v)
    ∧ (∀ r c, r < rows → c < cols → (∀ v, (r, c, v) ∉ es) →
        (spToDense rows cols es).getD (r * cols + c) (Val.num 0) = Val.num 0) := by
  have hlen : (spToDense rows cols es).length = rows * cols := by
    simp only [spToDense, List.length_map, List.length_range]
  have hget : ∀ r c, r < rows → c < cols →
      (spToDense rows cols es).getD (r * cols + c) (Val.num 0) = Val.num (sumAt es r c) := by
    intro r c hr hc
    have hlt : r * cols + c < (spToDense rows cols es).length := by
      rw [hlen]; exact encode_lt r c rows cols hr hc
    rw [List.getD_eq_getElem _ _ hlt]
    simp only [spToDense, List.getElem_map, List.getElem_range,
      (encode_div_mod r c cols hc).1, (encode_div_mod r c cols hc).2]
  refine ⟨rfl, ?_, ?_, ?_⟩
  · show (spToDense rows cols es).countP (fun v => decide (v ≠ Val.num 0)) = es.length
    simp only [spToDense, List.countP_map]
    rw [← countP_range_sumAt rows cols es h]
    apply List.countP_congr
    intro i _
    simp [Function.comp]
  · intro r c v hm
    obtain ⟨hr, hc, _⟩ := h.2 _ hm
    rw [hget r c hr hc, sumAt_mem es h.1 r c v hm]
  · intro r c hr hc hnm
    rw [hget r c hr hc, sumAt_eq_zero]
    intro e he hrc
    apply hnm e.2.2
    rcases e with ⟨er, ec, ev⟩
    show (r, c, ev) ∈ es
    rw [← hrc.1, ← hrc.2]
    exact he

/-- Witness for the amended C3 at a concrete canonical sparse matrix. -/
theorem to_array_sparse_canonical_witness :
    canonicalEntries 2 2 [(0, 1, 5)]
    ∧ countNonzero (to_array (.spmatrix "csr" 2 2 [(0, 1, 5)]))
        = nnz (.spmatrix "csr" 2 2 [(0, 1, 5)]) :=
  ⟨by decide, (to_array_sparse_canonical "csr" 2 2 [(0, 1, 5)] (by decide)).2.1⟩

/-- C10: to_array is idempotent: applying it twice gives the same result as
applying it once, because its result is always either a plain dense array
(returned unchanged) or the original unrecognized input. -/
theorem to_array_idempotent (X : PyVal) : to_array (to_array X) = to_array X := by
  cases X <;> rfl

/-- C2: to_array densifies sparse matrices, densifies labeled sparse tables
and extracts their values, extracts the values of labeled dense tables, and
returns dense arrays and any other value unchanged (in particular it is the
identity on dense arrays, and it is a total function: it never raises). -/
theorem to_array_cases :
    (∀ s d, to_array (.ndarray s d) = .ndarray s d)
    ∧ (∀ fmt r c es, to_array (.spmatrix fmt r c es) = .ndarray [r, c] (spToDense r c es))
    ∧ (∀ idx cols data fill,
        to_array (.sparseDataFrame idx cols data fill) = .ndarray [idx.length, cols.length] data)
    ∧ (∀ idx cols data, to_array (.dataFrame idx cols data) = .ndarray [idx.length, cols.length] data)
    ∧ (∀ tag, to_array (.other tag) = .other tag) :=
  ⟨fun _ _ => rfl, fun _ _ _ _ => rfl, fun _ _ _ _ => rfl, fun _ _ _ => rfl, fun _ => rfl⟩
